import Mathlib

/-!
Verification of the OCR.space API client (`ocr_space_api.py`).

The development shallowly embeds the client: the JSON response is a structure
whose fields are `Option`-typed (the Python code reads every field with
`dict.get` and a default), network and filesystem effects are supplied by an
explicit `Env` of oracles, and each operation returns its result together with
the list of network calls it performed, so that "performs no network I/O" is a
provable statement.
-/

set_option autoImplicit false

namespace OCRSpace

/-- A single recognized word inside a text-overlay line: `WordText`, `Left`,
`Top`, `Width`, `Height`.  Every field may be missing in the JSON. -/
structure Word where
  wordText : Option String
  left : Option Int
  top : Option Int
  height : Option Int
  width : Option Int
deriving DecidableEq, Repr

/-- One overlay line: its `Words` array may be missing. -/
structure Line where
  words : Option (List Word)
deriving DecidableEq, Repr

/-- The `TextOverlay` object of a parsed page: its `Lines` array may be missing. -/
structure TextOverlay where
  lines : Option (List Line)
deriving DecidableEq, Repr

/-- One entry of `ParsedResults`: per-page exit code, parsed text, overlay. -/
structure ParsedResult where
  fileParseExitCode : Option Int
  parsedText : Option String
  textOverlay : Option TextOverlay
deriving DecidableEq, Repr

/-- The JSON response of the OCR.space service, with exactly the fields the
client reads; every field may be absent. -/
structure OCRResponse where
  isErroredOnProcessing : Option Bool
  errorMessage : Option String
  errorDetails : Option String
  ocrExitCode : Option Int
  processingTimeInMilliseconds : Option String
  searchablePDFURL : Option String
  parsedResults : Option (List ParsedResult)
deriving DecidableEq, Repr

/-- The errors the client can raise: `ValueError`, `FileNotFoundError`,
`requests.RequestException` (any transport failure, including non-2xx raised by
`raise_for_status`), and the bare `Exception` raised for OCR processing
failures. -/
inductive OCRError where
  | valueError (msg : String)
  | fileNotFoundError (msg : String)
  | requestException (msg : String)
  | processingError (msg : String)
deriving DecidableEq, Repr

/-- Python `str.strip()`: drop leading and trailing whitespace characters. -/
def pyStrip (s : String) : String :=
  String.mk (((s.data.dropWhile Char.isWhitespace).reverse.dropWhile Char.isWhitespace).reverse)

/-- Python `sep.join(texts)`. -/
def pyJoin (sep : String) : List String → String
  | [] => ""
  | [s] => s
  | s :: rest => s ++ sep ++ pyJoin sep rest

/-- The per-page loop body of `extract_text`: keep the stripped `ParsedText` of
every page whose `FileParseExitCode` equals 1 and whose stripped text is
nonempty (`if text:`). -/
def extractTexts : List ParsedResult → List String
  | [] => []
  | result :: rest =>
    if result.fileParseExitCode = some 1 then
      let text := pyStrip (result.parsedText.getD "")
      if text ≠ "" then text :: extractTexts rest else extractTexts rest
    else extractTexts rest

/-- `OCRSpaceAPI.extract_text`: join the surviving page texts with a blank
line. -/
def extract_text (response_data : OCRResponse) : String :=
  pyJoin "\n\n" (extractTexts (response_data.parsedResults.getD []))

/-- A network call issued by the client: a GET with query parameters, or a
POST with body parameters and an optional multipart file part
`(filename, content_type)`. -/
inductive NetCall where
  | get (url : String) (params : List (String × String))
  | post (url : String) (dataParams : List (String × String)) (filePart : Option (String × String))
deriving DecidableEq, Repr

/-- The effectful environment: network responses (an `Except.error` models any
`requests.RequestException`, including non-2xx statuses raised by
`raise_for_status`), the filesystem, and whether a write to a path succeeds. -/
structure Env where
  net : NetCall → Except String OCRResponse
  fileExists : String → Bool
  readBytes : String → List Nat
  fetchBytes : String → Except String (List Nat)
  writeOk : String → Bool

def POST_ENDPOINT : String := "https://api.ocr.space/parse/image"

def GET_ENDPOINT : String := "https://api.ocr.space/parse/imageurl"

/-- The keys of the `LANGUAGES` dict of supported language codes. -/
def LANGUAGES : List String :=
  ["ara", "bul", "chs", "cht", "hrv", "cze", "dan", "dut", "eng", "fin",
   "fre", "ger", "gre", "hun", "kor", "ita", "jpn", "pol", "por", "rus",
   "slv", "spa", "swe", "tha", "tur", "ukr", "vnm", "auto"]

/-- The keyword arguments of `OCRSpaceAPI.ocr_space`, with their Python
defaults. -/
structure OcrArgs where
  input_type : String
  input_value : String
  language : String := "eng"
  is_overlay_required : Bool := false
  filetype : Option String := none
  detect_orientation : Bool := false
  is_create_searchable_pdf : Bool := false
  is_searchable_pdf_hide_text_layer : Bool := false
  scale : Bool := false
  is_table : Bool := false
  ocr_engine : Int := 1
deriving DecidableEq, Repr

/-- Python `str(b).lower()` for a bool. -/
def pyBoolStr (b : Bool) : String := if b then "true" else "false"

/-- The request-parameter dict built by `ocr_space`, in insertion order;
`filetype` is added only when truthy (present and nonempty). -/
def buildParams (apikey : String) (a : OcrArgs) : List (String × String) :=
  let params := [("apikey", apikey), ("language", a.language),
    ("isOverlayRequired", pyBoolStr a.is_overlay_required),
    ("detectOrientation", pyBoolStr a.detect_orientation),
    ("isCreateSearchablePdf", pyBoolStr a.is_create_searchable_pdf),
    ("isSearchablePdfHideTextLayer", pyBoolStr a.is_searchable_pdf_hide_text_layer),
    ("scale", pyBoolStr a.scale),
    ("isTable", pyBoolStr a.is_table),
    ("OCREngine", toString a.ocr_engine)]
  match a.filetype with
  | some ft => if ft ≠ "" then params ++ [("filetype", ft)] else params
  | none => params

/-- The validation block at the top of `ocr_space`: the first failing check
determines the `ValueError` message, `none` when all four checks pass. -/
def validationError (a : OcrArgs) : Option String :=
  if a.input_type ∉ (["url", "file", "base64"] : List String) then
    some "input_type must be url, file, or base64"
  else if a.language ∉ LANGUAGES then
    some ("Unsupported language: " ++ a.language)
  else if a.ocr_engine ∉ ([1, 2] : List Int) then
    some "ocr_engine must be 1 or 2"
  else if a.language = "auto" ∧ a.ocr_engine ≠ 2 then
    some "Auto-detect language is only available with OCR Engine 2"
  else none

/-- `OCRSpaceAPI._process_response`: raise for `IsErroredOnProcessing`, then
map `OCRExitCode` 3 and 4 to processing errors; exit code 2 is only logged. -/
def process_response (response_data : OCRResponse) : Except OCRError OCRResponse :=
  if response_data.isErroredOnProcessing.getD false then
    let error_msg := response_data.errorMessage.getD "Unknown error"
    let error_details := response_data.errorDetails.getD ""
    Except.error (OCRError.processingError
      ("OCR processing error: " ++ error_msg ++ ". Details: " ++ error_details))
  else
    let ocr_exit_code := response_data.ocrExitCode.getD 0
    if ocr_exit_code = 3 then
      Except.error (OCRError.processingError "All OCR processing failed")
    else if ocr_exit_code = 4 then
      Except.error (OCRError.processingError "Fatal OCR error occurred")
    else
      Except.ok response_data

/-- Characters of the final path component (after the last separator),
modelling `pathlib.Path(p).name`. -/
def afterLastChar (sep : Char) (l : List Char) : List Char :=
  l.foldl (fun acc c => if c = sep then [] else acc ++ [c]) []

/-- Suffix of a file name, modelling `pathlib.Path.suffix` on the final
component: the part from the last dot on, provided that dot is neither the
first nor the last character. -/
def pathSuffixChars (name : List Char) : List Char :=
  let n := name.length
  let revTail := name.reverse.takeWhile (fun c => c ≠ '.')
  if revTail.length = n then []
  else
    let i := n - 1 - revTail.length
    if 0 < i ∧ i < n - 1 then '.' :: revTail.reverse else []

/-- `pathlib.Path(p).suffix`. -/
def pathSuffix (p : String) : String :=
  String.mk (pathSuffixChars (afterLastChar '/' p.data))

/-- `pathlib.Path(p).name`. -/
def pathName (p : String) : String := String.mk (afterLastChar '/' p.data)

/-- Python `str.lower()`. -/
def pyLower (s : String) : String := String.mk (s.data.map Char.toLower)

/-- Association-list lookup with a default, modelling `dict.get(key, default)`
on a literal dict. -/
def dictGetD : List (String × String) → String → String → String
  | [], _, dflt => dflt
  | (k, v) :: rest, key, dflt => if k = key then v else dictGetD rest key dflt

/-- The extension-to-MIME table of `OCRSpaceAPI._get_content_type`. -/
def content_types : List (String × String) :=
  [(".jpg", "image/jpeg"), (".jpeg", "image/jpeg"),
   (".png", "image/png"), (".gif", "image/gif"),
   (".webp", "image/webp"), (".tiff", "image/tiff"),
   (".tif", "image/tiff"), (".pdf", "application/pdf")]

/-- `OCRSpaceAPI._get_content_type`. -/
def get_content_type (extension : String) : String :=
  dictGetD content_types extension "application/octet-stream"

/-- Python `s.startswith(pat)` over explicit character lists. -/
def charsStartWith : List Char → List Char → Bool
  | [], _ => true
  | _ :: _, [] => false
  | p :: ps, c :: cs => p = c && charsStartWith ps cs

/-- Python `s.startswith(pat)`. -/
def pyStartswith (s pat : String) : Bool := charsStartWith pat.data s.data

/-- `OCRSpaceAPI._ocr_from_url`: add the `url` parameter, issue a GET against
the URL endpoint, validate the response. -/
def ocr_from_url (env : Env) (url : String) (params : List (String × String)) :
    Except OCRError OCRResponse × List NetCall :=
  let call := NetCall.get GET_ENDPOINT (params ++ [("url", url)])
  match env.net call with
  | Except.error e => (Except.error (OCRError.requestException e), [call])
  | Except.ok json => (process_response json, [call])

/-- `OCRSpaceAPI._ocr_from_file`: not-found check, content-type inference from
the lowercased extension, multipart POST, response validation. -/
def ocr_from_file (env : Env) (file_path : String) (params : List (String × String)) :
    Except OCRError OCRResponse × List NetCall :=
  if env.fileExists file_path = false then
    (Except.error (OCRError.fileNotFoundError ("File not found: " ++ file_path)), [])
  else
    let content_type := get_content_type (pyLower (pathSuffix file_path))
    let call := NetCall.post POST_ENDPOINT params (some (pathName file_path, content_type))
    match env.net call with
    | Except.error e => (Except.error (OCRError.requestException e), [call])
    | Except.ok json => (process_response json, [call])

/-- `OCRSpaceAPI._ocr_from_base64`: reject payloads that do not start with
`data:`, otherwise POST the payload as the `base64Image` body field and
validate the response. -/
def ocr_from_base64 (env : Env) (base64_string : String) (params : List (String × String)) :
    Except OCRError OCRResponse × List NetCall :=
  if pyStartswith base64_string "data:" = false then
    (Except.error (OCRError.valueError "Base64 string must include data URI prefix"), [])
  else
    let call := NetCall.post POST_ENDPOINT (params ++ [("base64Image", base64_string)]) none
    match env.net call with
    | Except.error e => (Except.error (OCRError.requestException e), [call])
    | Except.ok json => (process_response json, [call])

/-- `OCRSpaceAPI.ocr_space`: validate the arguments, build the parameter dict,
dispatch on `input_type`.  The second component records the network calls
performed. -/
def ocr_space (env : Env) (api_key : String) (a : OcrArgs) :
    Except OCRError OCRResponse × List NetCall :=
  match validationError a with
  | some msg => (Except.error (OCRError.valueError msg), [])
  | none =>
    let params := buildParams api_key a
    if a.input_type = "url" then ocr_from_url env a.input_value params
    else if a.input_type = "file" then ocr_from_file env a.input_value params
    else ocr_from_base64 env a.input_value params

/-- One record of `extract_words_with_positions`: 1-based page/line/word
indices, the word text, and the bounding box with missing fields defaulted
to 0. -/
structure WordRecord where
  page : Nat
  line : Nat
  word_index : Nat
  text : String
  left : Int
  top : Int
  height : Int
  width : Int
deriving DecidableEq, Repr

/-- The record built for one word in the innermost loop of
`extract_words_with_positions`. -/
def wordRecord (page_idx line_idx word_idx : Nat) (word : Word) : WordRecord :=
  { page := page_idx + 1
    line := line_idx + 1
    word_index := word_idx + 1
    text := word.wordText.getD ""
    left := word.left.getD 0
    top := word.top.getD 0
    height := word.height.getD 0
    width := word.width.getD 0 }

/-- `for word_idx, word in enumerate(words)`, starting at `word_idx`. -/
def wordsLoop (page_idx line_idx : Nat) : Nat → List Word → List WordRecord
  | _, [] => []
  | word_idx, word :: rest =>
    wordRecord page_idx line_idx word_idx word :: wordsLoop page_idx line_idx (word_idx + 1) rest

/-- `for line_idx, line in enumerate(lines)`, starting at `line_idx`; each
line contributes the records of its `Words` array (missing: empty). -/
def linesLoop (page_idx : Nat) : Nat → List Line → List WordRecord
  | _, [] => []
  | line_idx, line :: rest =>
    wordsLoop page_idx line_idx 0 (line.words.getD []) ++ linesLoop page_idx (line_idx + 1) rest

/-- The records contributed by one page: nothing unless `FileParseExitCode`
is 1; `TextOverlay` defaults to an empty dict and `Lines` to an empty list. -/
def pageRecords (page_idx : Nat) (result : ParsedResult) : List WordRecord :=
  if result.fileParseExitCode = some 1 then
    let lines := match result.textOverlay with
      | some overlay => overlay.lines.getD []
      | none => []
    linesLoop page_idx 0 lines
  else []

/-- `for page_idx, result in enumerate(parsed_results)`, starting at
`page_idx`. -/
def pagesLoop : Nat → List ParsedResult → List WordRecord
  | _, [] => []
  | page_idx, result :: rest => pageRecords page_idx result ++ pagesLoop (page_idx + 1) rest

/-- `OCRSpaceAPI.extract_words_with_positions`. -/
def extract_words_with_positions (response_data : OCRResponse) : List WordRecord :=
  pagesLoop 0 (response_data.parsedResults.getD [])

/-- `OCRSpaceAPI.download_searchable_pdf`: returns the boolean result together
with the list of URLs fetched and the file writes `(path, bytes)` performed.
`if not pdf_url` treats both a missing field and an empty string as absent;
fetch and write failures are caught and turned into `false`. -/
def download_searchable_pdf (env : Env) (response_data : OCRResponse) (output_path : String) :
    Bool × List String × List (String × List Nat) :=
  let pdf_url := response_data.searchablePDFURL.getD ""
  if pdf_url = "" then (false, [], [])
  else
    match env.fetchBytes pdf_url with
    | Except.error _ => (false, [pdf_url], [])
    | Except.ok content =>
      if env.writeOk output_path then (true, [pdf_url], [(output_path, content)])
      else (false, [pdf_url], [])

/-- The standard base64 alphabet, as used by `base64.b64encode`. -/
def b64chars : List Char :=
  "ABCDEFGHIJKLMNOPQRSTUVWXYZabcdefghijklmnopqrstuvwxyz0123456789+/".data

/-- The base64 digit for a sextet value. -/
def sextetChar (n : Nat) : Char := b64chars.getD n 'A'

/-- RFC 4648 base64 encoding of a byte list, three bytes to four digits, with
`=` padding, as performed by `base64.b64encode`. -/
def b64encodeGroups : List Nat → List Char
  | [] => []
  | [a] => [sextetChar (a / 4), sextetChar (a % 4 * 16), '=', '=']
  | [a, b] => [sextetChar (a / 4), sextetChar (a % 4 * 16 + b / 16), sextetChar (b % 16 * 4), '=']
  | a :: b :: c :: rest =>
    sextetChar (a / 4) :: sextetChar (a % 4 * 16 + b / 16) ::
      sextetChar (b % 16 * 4 + c / 64) :: sextetChar (c % 64) :: b64encodeGroups rest

/-- `base64.b64encode(bytes).decode("utf-8")`. -/
def b64encode (bytes : List Nat) : String := String.mk (b64encodeGroups bytes)

/-- Index of a character in the base64 alphabet. -/
def sextetValAux (c : Char) : List Char → Nat → Option Nat
  | [], _ => none
  | d :: rest, i => if d = c then some i else sextetValAux c rest (i + 1)

/-- Value of a base64 digit, `none` for characters outside the alphabet. -/
def sextetVal (c : Char) : Option Nat := sextetValAux c b64chars 0

/-- The single byte encoded by a final `xx==` group. -/
def decodeBytes2 (v1 v2 : Nat) : List Nat := [(v1 * 4 + v2 / 16) % 256]

/-- The two bytes encoded by a final `xxx=` group. -/
def decodeBytes3 (v1 v2 v3 : Nat) : List Nat :=
  [(v1 * 4 + v2 / 16) % 256, (v2 % 16 * 16 + v3 / 4) % 256]

/-- The three bytes encoded by a full group of four digits. -/
def decodeBytes4 (v1 v2 v3 v4 : Nat) : List Nat :=
  [(v1 * 4 + v2 / 16) % 256, (v2 % 16 * 16 + v3 / 4) % 256, (v3 % 4 * 64 + v4) % 256]

/-- Reference RFC 4648 base64 decoder (`base64.b64decode`): four digits at a
time, padding only in the final group. -/
def b64decodeGroups : List Char → Option (List Nat)
  | [] => some []
  | c1 :: c2 :: c3 :: c4 :: rest =>
    match sextetVal c1, sextetVal c2 with
    | some v1, some v2 =>
      if c3 = '=' then
        if c4 = '=' ∧ rest = [] then some (decodeBytes2 v1 v2) else none
      else
        match sextetVal c3 with
        | some v3 =>
          if c4 = '=' then
            if rest = [] then some (decodeBytes3 v1 v2 v3) else none
          else
            match sextetVal c4 with
            | some v4 =>
              match b64decodeGroups rest with
              | some tail => some (decodeBytes4 v1 v2 v3 v4 ++ tail)
              | none => none
            | none => none
        | none => none
    | _, _ => none
  | _ => none

/-- `base64.b64decode` on a base64 string. -/
def b64decode (s : String) : Option (List Nat) := b64decodeGroups s.data

/-- The extension-to-MIME table of `image_to_base64` (no PDF entry; unknown
extensions fall back to `image/jpeg`). -/
def mime_types : List (String × String) :=
  [(".jpg", "image/jpeg"), (".jpeg", "image/jpeg"),
   (".png", "image/png"), (".gif", "image/gif"),
   (".webp", "image/webp"), (".tiff", "image/tiff"),
   (".tif", "image/tiff")]

/-- `image_to_base64`: not-found check, MIME inference from the lowercased
extension, then `data:<mime>;base64,<encoded bytes>`. -/
def image_to_base64 (env : Env) (image_path : String) : Except OCRError String :=
  if env.fileExists image_path = false then
    Except.error (OCRError.fileNotFoundError ("Image file not found: " ++ image_path))
  else
    let extension := pyLower (pathSuffix image_path)
    let mime_type := dictGetD mime_types extension "image/jpeg"
    Except.ok ("data:" ++ mime_type ++ ";base64," ++ b64encode (env.readBytes image_path))

/-! ## Concrete fixtures used by witnesses and counterexamples -/

/-- A response with every field absent; it passes `process_response`. -/
def emptyResponse : OCRResponse :=
  { isErroredOnProcessing := none, errorMessage := none, errorDetails := none,
    ocrExitCode := none, processingTimeInMilliseconds := none,
    searchablePDFURL := none, parsedResults := none }

/-- An environment in which every effect succeeds and every file exists. -/
def okEnv : Env :=
  { net := fun _ => Except.ok emptyResponse
    fileExists := fun _ => true
    readBytes := fun _ => []
    fetchBytes := fun _ => Except.ok []
    writeOk := fun _ => true }

/-- `okEnv` with an empty filesystem. -/
def noFileEnv : Env :=
  { okEnv with fileExists := fun _ => false }

/-- A response flagged as errored on processing, with message and details. -/
def rErrored : OCRResponse :=
  { emptyResponse with
    isErroredOnProcessing := some true
    errorMessage := some "boom"
    errorDetails := some "det" }

/-- A response with the partial-success exit code 2. -/
def rCode2 : OCRResponse := { emptyResponse with ocrExitCode := some 2 }

/-! ## Spec-side definitions and response fixtures -/

/-- Text extraction as claim C3 words it: the stripped `ParsedText` of every
page whose exit code indicates success, joined with a blank-line separator —
with no nonemptiness filter on the stripped text. -/
def extract_text_claim (response_data : OCRResponse) : String :=
  pyJoin "\n\n"
    (((response_data.parsedResults.getD []).filter
        (fun result => decide (result.fileParseExitCode = some 1))).map
      (fun result => pyStrip (result.parsedText.getD "")))

/-- Text extraction as claim C3 amended: only successful pages whose stripped
text is nonempty contribute a segment. -/
def extract_text_claim_amended (response_data : OCRResponse) : String :=
  pyJoin "\n\n"
    ((((response_data.parsedResults.getD []).filter
          (fun result => decide (result.fileParseExitCode = some 1))).map
        (fun result => pyStrip (result.parsedText.getD ""))).filter
      (fun text => decide (text ≠ "")))

/-- A successful page with the given parsed text and no overlay. -/
def okPage (text : String) : ParsedResult :=
  { fileParseExitCode := some 1, parsedText := some text, textOverlay := none }

/-- A failed page (per-page exit code ≠ 1). -/
def failedPage : ParsedResult :=
  { fileParseExitCode := some 0, parsedText := some "junk", textOverlay := none }

/-- The spec's example response: successful pages "Hello" and "World" around
one failed page. -/
def rHello : OCRResponse :=
  { emptyResponse with
    parsedResults := some [okPage "Hello", failedPage, okPage "World"] }

/-- A response with a successful page whose text is only whitespace, between
two successful pages. -/
def rWhitespacePage : OCRResponse :=
  { emptyResponse with
    parsedResults := some [okPage "Hello", okPage "   ", okPage "World"] }

/-- A response with one successful page carrying one overlay line of two
words; the second word has no `Width` field. -/
def rOverlay : OCRResponse :=
  { emptyResponse with
    parsedResults := some
      [{ fileParseExitCode := some 1
         parsedText := some "Hello World"
         textOverlay := some
           { lines := some
               [{ words := some
                   [{ wordText := some "Hello", left := some 10, top := some 20,
                      height := some 30, width := some 40 },
                    { wordText := some "World", left := some 60, top := some 20,
                      height := some 30, width := none }] }] } }] }

/-- A response whose pages carry no overlay data. -/
def rNoOverlay : OCRResponse := rHello

/-- A response whose first page failed and whose second page succeeded with
one overlay word. -/
def rFailedThenOverlay : OCRResponse :=
  { emptyResponse with
    parsedResults := some
      [failedPage,
       { fileParseExitCode := some 1
         parsedText := some "W"
         textOverlay := some
           { lines := some
               [{ words := some
                   [{ wordText := some "W", left := some 1, top := some 2,
                      height := some 3, width := some 4 }] }] } }] }

/-- The single record emitted for `rFailedThenOverlay`. -/
def recW : WordRecord :=
  { page := 2, line := 1, word_index := 1, text := "W",
    left := 1, top := 2, height := 3, width := 4 }

/-- Does `pat` occur anywhere in the character list? -/
def charsContain (pat : List Char) : List Char → Bool
  | [] => charsStartWith pat []
  | c :: rest => charsStartWith pat (c :: rest) || charsContain pat rest

/-- A payload "begins with a data-URI prefix of the form `data:...;base64,`"
(claim C5's wording): it starts with `data:` and an occurrence of the marker
`;base64,` follows. -/
def hasDataUriBase64Prefix (s : String) : Bool :=
  pyStartswith s "data:" && charsContain ";base64,".data s.data

/-- The base64-kind arguments used for the C5 counterexample: the payload
starts with `data:` but contains no `;base64,` marker. -/
def junkBase64Args : OcrArgs := { input_type := "base64", input_value := "data:junk" }

/-- An environment whose files all hold three concrete bytes. -/
def pngEnv : Env :=
  { okEnv with readBytes := fun _ => [137, 80, 78] }

/-- Python `s.endswith(pat)`. -/
def pyEndswith (s pat : String) : Bool := charsStartWith pat.data.reverse s.data.reverse

/-- A response with a single successful page whose own text contains a run of
four newlines. -/
def rMultiNewline : OCRResponse :=
  { emptyResponse with parsedResults := some [okPage "a\n\n\n\nb"] }

/-! ## Theorems -/

/-! ## Validation helpers -/

theorem validationError_eq_none (a : OcrArgs) :
    validationError a = none ↔
      a.input_type ∈ (["url", "file", "base64"] : List String) ∧ a.language ∈ LANGUAGES ∧
        a.ocr_engine ∈ ([1, 2] : List Int) ∧ ¬(a.language = "auto" ∧ a.ocr_engine ≠ 2) := by
  unfold validationError
  split_ifs with h1 h2 h3 h4 <;> simp_all

theorem process_response_ne_valueError (r : OCRResponse) (msg : String) :
    process_response r ≠ Except.error (OCRError.valueError msg) := by
  simp only [process_response]
  split_ifs <;> simp

theorem ocr_from_url_ne_valueError (env : Env) (url : String)
    (params : List (String × String)) (msg : String) :
    (ocr_from_url env url params).1 ≠ Except.error (OCRError.valueError msg) := by
  cases hnet : env.net (NetCall.get GET_ENDPOINT (params ++ [("url", url)])) with
  | error e => simp [ocr_from_url, hnet]
  | ok json => simpa [ocr_from_url, hnet] using process_response_ne_valueError json msg

theorem ocr_from_file_ne_valueError (env : Env) (fp : String)
    (params : List (String × String)) (msg : String) :
    (ocr_from_file env fp params).1 ≠ Except.error (OCRError.valueError msg) := by
  by_cases hex : env.fileExists fp = false
  · simp [ocr_from_file, hex]
  · cases hnet : env.net (NetCall.post POST_ENDPOINT params
        (some (pathName fp, get_content_type (pyLower (pathSuffix fp))))) with
    | error e => simp [ocr_from_file, hex, hnet]
    | ok json => simpa [ocr_from_file, hex, hnet] using process_response_ne_valueError json msg

theorem ocr_from_base64_valueError_msg (env : Env) (s : String)
    (params : List (String × String)) (msg : String)
    (h : (ocr_from_base64 env s params).1 = Except.error (OCRError.valueError msg)) :
    msg = "Base64 string must include data URI prefix" := by
  by_cases hp : pyStartswith s "data:" = false
  · simp [ocr_from_base64, hp] at h
    exact h.symm
  · revert h
    cases hnet : env.net (NetCall.post POST_ENDPOINT (params ++ [("base64Image", s)]) none) with
    | error e => simp [ocr_from_base64, hp, hnet]
    | ok json =>
      intro h
      simp only [ocr_from_base64, hp, if_false, hnet] at h
      exact absurd h (process_response_ne_valueError json msg)

/-! ## Claim C1 -/

/-- C1: `ocr_space` raises `ValueError` before any network I/O whenever the
input kind is not one of url/file/base64, the language is unsupported, the
engine is not 1 or 2, or language `auto` is paired with an engine other
than 2; when all four checks pass, none of these validation errors is raised
(the only other `ValueError` the call can produce is the base64 data-URI
check, whose message differs from all four). -/
theorem C1_ocr_space_validates_before_io (env : Env) (api_key : String) (a : OcrArgs) :
    ((a.input_type ∉ (["url", "file", "base64"] : List String) ∨ a.language ∉ LANGUAGES ∨
        a.ocr_engine ∉ ([1, 2] : List Int) ∨ (a.language = "auto" ∧ a.ocr_engine ≠ 2)) →
      ∃ msg, ocr_space env api_key a = (Except.error (OCRError.valueError msg), []))
    ∧ (a.input_type ∈ (["url", "file", "base64"] : List String) → a.language ∈ LANGUAGES →
        a.ocr_engine ∈ ([1, 2] : List Int) → ¬(a.language = "auto" ∧ a.ocr_engine ≠ 2) →
        ∀ msg, (ocr_space env api_key a).1 = Except.error (OCRError.valueError msg) →
          msg = "Base64 string must include data URI prefix") := by
  constructor
  · intro h
    have hv : validationError a ≠ none := by
      intro hnone
      rw [validationError_eq_none] at hnone
      tauto
    cases hveq : validationError a with
    | none => exact absurd hveq hv
    | some msg =>
      refine ⟨msg, ?_⟩
      unfold ocr_space
      rw [hveq]
  · intro h1 h2 h3 h4 msg hmsg
    have hv : validationError a = none := (validationError_eq_none a).mpr ⟨h1, h2, h3, h4⟩
    unfold ocr_space at hmsg
    rw [hv] at hmsg
    by_cases hu : a.input_type = "url"
    · rw [if_pos hu] at hmsg
      exact absurd hmsg (ocr_from_url_ne_valueError env a.input_value (buildParams api_key a) msg)
    · rw [if_neg hu] at hmsg
      by_cases hf : a.input_type = "file"
      · rw [if_pos hf] at hmsg
        exact absurd hmsg (ocr_from_file_ne_valueError env a.input_value (buildParams api_key a) msg)
      · rw [if_neg hf] at hmsg
        exact ocr_from_base64_valueError_msg env a.input_value (buildParams api_key a) msg hmsg

/-- Witness for C1 at concrete inputs: an unsupported language raises
`ValueError` with no network call, and a fully valid call never produces one
of the four validation errors. -/
theorem C1_witness :
    (∃ msg, ocr_space okEnv "k" { input_type := "url", input_value := "u", language := "xx" } =
      (Except.error (OCRError.valueError msg), []))
    ∧ (∀ msg, (ocr_space okEnv "k" { input_type := "url", input_value := "u" }).1 =
        Except.error (OCRError.valueError msg) →
          msg = "Base64 string must include data URI prefix") :=
  ⟨(C1_ocr_space_validates_before_io okEnv "k"
      { input_type := "url", input_value := "u", language := "xx" }).1 (by decide),
   fun msg h => (C1_ocr_space_validates_before_io okEnv "k"
      { input_type := "url", input_value := "u" }).2
        (by decide) (by decide) (by decide) (by decide) msg h⟩

/-! ## Claim C2 -/

/-- C2: after a successful HTTP exchange, `process_response` raises exactly
when the response flags `IsErroredOnProcessing` (with the service message and
details in the error) or has `OCRExitCode` 3 (all pages failed) or 4 (fatal
error); any other exit code — in particular 2 — passes the response through
unchanged. -/
theorem C2_process_response_errors (r : OCRResponse) :
    (r.isErroredOnProcessing.getD false = true →
      process_response r = Except.error (OCRError.processingError
        ("OCR processing error: " ++ r.errorMessage.getD "Unknown error" ++
          ". Details: " ++ r.errorDetails.getD "")))
    ∧ (r.isErroredOnProcessing.getD false = false →
        (r.ocrExitCode.getD 0 = 3 →
          process_response r = Except.error (OCRError.processingError "All OCR processing failed"))
      ∧ (r.ocrExitCode.getD 0 = 4 →
          process_response r = Except.error (OCRError.processingError "Fatal OCR error occurred"))
      ∧ (r.ocrExitCode.getD 0 = 2 → process_response r = Except.ok r)
      ∧ (r.ocrExitCode.getD 0 ≠ 3 → r.ocrExitCode.getD 0 ≠ 4 →
          process_response r = Except.ok r)) := by
  unfold process_response
  split_ifs <;> simp_all

/-- Witness for C2: a flagged response raises with the service message and
details, and a partial-success response (exit code 2) passes through. -/
theorem C2_witness :
    process_response rErrored =
      Except.error (OCRError.processingError "OCR processing error: boom. Details: det")
    ∧ process_response rCode2 = Except.ok rCode2 :=
  ⟨((C2_process_response_errors rErrored).1 rfl).trans (by rfl),
   ((C2_process_response_errors rCode2).2 rfl).2.2.1 rfl⟩

/-- Counterexample to C3 as stated: on a successful page whose `ParsedText`
strips to the empty string, `extract_text` drops the page entirely, while the
claim's formula (all successful pages, stripped, joined) keeps an empty
segment and therefore produces a doubled separator. -/
theorem C3_counterexample :
    extract_text rWhitespacePage = "Hello\n\nWorld"
    ∧ extract_text_claim rWhitespacePage = "Hello\n\n\n\nWorld"
    ∧ extract_text rWhitespacePage ≠ extract_text_claim rWhitespacePage := by
  refine ⟨by decide, by decide, by decide⟩

theorem extractTexts_eq_filter_map (ps : List ParsedResult) :
    extractTexts ps =
      ((ps.filter (fun result => decide (result.fileParseExitCode = some 1))).map
          (fun result => pyStrip (result.parsedText.getD ""))).filter
        (fun text => decide (text ≠ "")) := by
  induction ps with
  | nil => rfl
  | cons result rest ih =>
    by_cases hc : result.fileParseExitCode = some 1
    · by_cases ht : pyStrip (result.parsedText.getD "") = ""
      · simp [extractTexts, hc, ht, ih]
      · simp [extractTexts, hc, ht, ih]
    · simp [extractTexts, hc, ih]

/-- C3 amended: `extract_text` concatenates, in page order, the stripped
parsed text of every successful page whose stripped text is nonempty, joined
with a blank-line separator, failed pages silently skipped; on the spec's
example (successful "Hello" and "World" around a failed page) it returns
"Hello\n\nWorld". -/
theorem C3_extract_text (response_data : OCRResponse) :
    extract_text response_data = extract_text_claim_amended response_data
    ∧ extract_text rHello = "Hello\n\nWorld" := by
  refine ⟨?_, by decide⟩
  unfold extract_text extract_text_claim_amended
  rw [extractTexts_eq_filter_map]

/-! ## Claims C4 and C9 -/

theorem wordsLoop_page_line (page_idx line_idx : Nat) :
    ∀ (word_idx : Nat) (ws : List Word) (rec : WordRecord),
      rec ∈ wordsLoop page_idx line_idx word_idx ws → rec.page = page_idx + 1 := by
  intro word_idx ws
  induction ws generalizing word_idx with
  | nil => intro rec h; simp [wordsLoop] at h
  | cons w rest ih =>
    intro rec h
    rw [wordsLoop] at h
    rcases List.mem_cons.mp h with h | h
    · subst h; rfl
    · exact ih (word_idx + 1) rec h

theorem linesLoop_page (page_idx : Nat) :
    ∀ (line_idx : Nat) (ls : List Line) (rec : WordRecord),
      rec ∈ linesLoop page_idx line_idx ls → rec.page = page_idx + 1 := by
  intro line_idx ls
  induction ls generalizing line_idx with
  | nil => intro rec h; simp [linesLoop] at h
  | cons l rest ih =>
    intro rec h
    rw [linesLoop] at h
    rcases List.mem_append.mp h with h | h
    · exact wordsLoop_page_line page_idx line_idx 0 (l.words.getD []) rec h
    · exact ih (line_idx + 1) rec h

theorem pageRecords_mem (page_idx : Nat) (result : ParsedResult) (rec : WordRecord)
    (h : rec ∈ pageRecords page_idx result) :
    rec.page = page_idx + 1 ∧ result.fileParseExitCode = some 1 := by
  unfold pageRecords at h
  split_ifs at h with hc
  · exact ⟨linesLoop_page page_idx 0 _ rec h, hc⟩
  · simp at h

theorem pagesLoop_mem :
    ∀ (k : Nat) (ps : List ParsedResult) (rec : WordRecord), rec ∈ pagesLoop k ps →
      ∃ i result, ps[i]? = some result ∧ rec.page = k + i + 1 ∧
        result.fileParseExitCode = some 1 := by
  intro k ps
  induction ps generalizing k with
  | nil => intro rec h; simp [pagesLoop] at h
  | cons p rest ih =>
    intro rec h
    rw [pagesLoop] at h
    rcases List.mem_append.mp h with h | h
    · obtain ⟨hp, hc⟩ := pageRecords_mem k p rec h
      exact ⟨0, p, by simp, by omega, hc⟩
    · obtain ⟨i, result, hres, hp, hc⟩ := ih (k + 1) rec h
      exact ⟨i + 1, result, by simpa using hres, by omega, hc⟩

theorem pagesLoop_eq_nil_of_no_overlay :
    ∀ (k : Nat) (ps : List ParsedResult), (∀ result ∈ ps, result.textOverlay = none) →
      pagesLoop k ps = [] := by
  intro k ps
  induction ps generalizing k with
  | nil => intro _; rfl
  | cons p rest ih =>
    intro h
    rw [pagesLoop]
    have hp : p.textOverlay = none := h p (by simp)
    have hrest : ∀ result ∈ rest, result.textOverlay = none :=
      fun r hr => h r (by simp [hr])
    rw [ih (k + 1) hrest]
    unfold pageRecords
    split_ifs
    · rw [hp]; rfl
    · rfl

/-- C4: `extract_words_with_positions` yields the empty list (and no error)
on a response without overlay data, and on a page with one overlay line of
two words it yields two records with 1-based page/line/word indices that
preserve each word's text and geometry, defaulting a missing geometry field
to 0. -/
theorem C4_extract_words (response_data : OCRResponse) :
    ((∀ result ∈ response_data.parsedResults.getD [], result.textOverlay = none) →
      extract_words_with_positions response_data = [])
    ∧ extract_words_with_positions rOverlay =
        [{ page := 1, line := 1, word_index := 1, text := "Hello",
           left := 10, top := 20, height := 30, width := 40 },
         { page := 1, line := 1, word_index := 2, text := "World",
           left := 60, top := 20, height := 30, width := 0 }] := by
  constructor
  · intro h
    exact pagesLoop_eq_nil_of_no_overlay 0 (response_data.parsedResults.getD []) h
  · decide

/-- Witness for C4: on the overlay-free example response the word list is
empty. -/
theorem C4_witness : extract_words_with_positions rNoOverlay = [] :=
  (C4_extract_words rNoOverlay).1 (by decide)

/-- C9: the `page` field of every emitted record is a 1-based index into the
full `ParsedResults` list — the page at that position exists and is the
successful page the record came from — so failed pages advance the numbering:
on a failed first page followed by a successful overlay page, the records
carry page 2. -/
theorem C9_page_counts_failed_pages (response_data : OCRResponse) :
    (∀ rec ∈ extract_words_with_positions response_data,
      1 ≤ rec.page ∧ ∃ result, (response_data.parsedResults.getD [])[rec.page - 1]? = some result ∧
        result.fileParseExitCode = some 1)
    ∧ extract_words_with_positions rFailedThenOverlay =
        [{ page := 2, line := 1, word_index := 1, text := "W",
           left := 1, top := 2, height := 3, width := 4 }] := by
  constructor
  · intro rec h
    obtain ⟨i, result, hres, hp, hc⟩ :=
      pagesLoop_mem 0 (response_data.parsedResults.getD []) rec h
    refine ⟨by omega, result, ?_, hc⟩
    have : rec.page - 1 = i := by omega
    rw [this]
    exact hres
  · decide

/-- Witness for C9 at the concrete two-page response: the single record has
page 2, and page 2 of the full list exists and is the successful one. -/
theorem C9_witness :
    1 ≤ recW.page
    ∧ ∃ result, (rFailedThenOverlay.parsedResults.getD [])[recW.page - 1]? = some result ∧
        result.fileParseExitCode = some 1 :=
  (C9_page_counts_failed_pages rFailedThenOverlay).1 recW (by decide)

/-- Counterexample to C5 as stated: the payload "data:junk" does not begin
with a data-URI prefix of the form `data:...;base64,`, yet `ocr_space`
raises no invalid-argument error and performs a network call — the code
checks only the bare `data:` prefix. -/
theorem C5_counterexample :
    hasDataUriBase64Prefix "data:junk" = false
    ∧ ocr_space okEnv "k" junkBase64Args =
        (Except.ok emptyResponse,
          [NetCall.post POST_ENDPOINT
            (buildParams "k" junkBase64Args ++ [("base64Image", "data:junk")]) none]) := by
  refine ⟨by decide, by rfl⟩

/-- C5 amended: for every base64 payload that does not begin with the bare
`data:` prefix, `ocr_space` with input kind base64 (and otherwise valid
arguments) raises `ValueError` before any network call; payloads beginning
with `data:` pass this check even without a `;base64,` marker. -/
theorem C5_base64_needs_data_prefix (env : Env) (api_key : String) (a : OcrArgs)
    (hk : a.input_type = "base64")
    (h2 : a.language ∈ LANGUAGES)
    (h3 : a.ocr_engine ∈ ([1, 2] : List Int))
    (h4 : ¬(a.language = "auto" ∧ a.ocr_engine ≠ 2))
    (hp : pyStartswith a.input_value "data:" = false) :
    ocr_space env api_key a =
      (Except.error (OCRError.valueError "Base64 string must include data URI prefix"), []) := by
  have hv : validationError a = none :=
    (validationError_eq_none a).mpr ⟨by rw [hk]; simp, h2, h3, h4⟩
  unfold ocr_space
  rw [hv]
  rw [hk]
  simp only [if_neg (by decide : ¬("base64" : String) = "url"),
    if_neg (by decide : ¬("base64" : String) = "file")]
  simp [ocr_from_base64, hp]

/-- Witness for C5 amended: a payload without the `data:` prefix raises the
invalid-argument error with no network call. -/
theorem C5_witness :
    ocr_space okEnv "k" { input_type := "base64", input_value := "zzzz" } =
      (Except.error (OCRError.valueError "Base64 string must include data URI prefix"), []) :=
  C5_base64_needs_data_prefix okEnv "k" { input_type := "base64", input_value := "zzzz" }
    rfl (by decide) (by decide) (by decide) (by decide)

/-! ## Claim C6 -/

/-- C6: for every file path that does not exist, `ocr_space` with input kind
file (and otherwise valid arguments) raises `FileNotFoundError` and performs
no network call. -/
theorem C6_missing_file (env : Env) (api_key : String) (a : OcrArgs)
    (hk : a.input_type = "file")
    (h2 : a.language ∈ LANGUAGES)
    (h3 : a.ocr_engine ∈ ([1, 2] : List Int))
    (h4 : ¬(a.language = "auto" ∧ a.ocr_engine ≠ 2))
    (hf : env.fileExists a.input_value = false) :
    ocr_space env api_key a =
      (Except.error (OCRError.fileNotFoundError ("File not found: " ++ a.input_value)), []) := by
  have hv : validationError a = none :=
    (validationError_eq_none a).mpr ⟨by rw [hk]; simp, h2, h3, h4⟩
  unfold ocr_space
  rw [hv]
  rw [hk]
  simp only [if_neg (by decide : ¬("file" : String) = "url"), if_pos rfl]
  simp [ocr_from_file, hf]

/-- Witness for C6: a nonexistent path raises not-found with no network
call. -/
theorem C6_witness :
    ocr_space noFileEnv "k" { input_type := "file", input_value := "/nope.png" } =
      (Except.error (OCRError.fileNotFoundError "File not found: /nope.png"), []) := by
  have h := C6_missing_file noFileEnv "k"
    { input_type := "file", input_value := "/nope.png" }
    rfl (by decide) (by decide) (by decide) rfl
  exact h.trans (by rfl)

/-! ## Claim C7 -/

/-- C7: `download_searchable_pdf` returns false, fetches nothing and writes
nothing when the response carries no searchable-PDF URL; it returns true
exactly when a nonempty URL is present and both the fetch and the write
succeed; whenever it returns false it writes no file. -/
theorem C7_download_searchable_pdf (env : Env) (r : OCRResponse) (output_path : String) :
    (r.searchablePDFURL = none →
      download_searchable_pdf env r output_path = (false, [], []))
    ∧ ((download_searchable_pdf env r output_path).1 = true ↔
        ∃ url content, r.searchablePDFURL = some url ∧ url ≠ "" ∧
          env.fetchBytes url = Except.ok content ∧ env.writeOk output_path = true)
    ∧ ((download_searchable_pdf env r output_path).1 = false →
        (download_searchable_pdf env r output_path).2.2 = []) := by
  refine ⟨?_, ?_, ?_⟩
  · intro h
    simp [download_searchable_pdf, h]
  · constructor
    · intro h
      cases hurl : r.searchablePDFURL with
      | none => simp [download_searchable_pdf, hurl] at h
      | some url =>
        by_cases hemp : url = ""
        · simp [download_searchable_pdf, hurl, hemp] at h
        · cases hfetch : env.fetchBytes url with
          | error e => simp [download_searchable_pdf, hurl, hemp, hfetch] at h
          | ok content =>
            by_cases hw : env.writeOk output_path
            · exact ⟨url, content, rfl, hemp, hfetch, hw⟩
            · simp [download_searchable_pdf, hurl, hemp, hfetch, hw] at h
    · rintro ⟨url, content, hurl, hemp, hfetch, hw⟩
      simp [download_searchable_pdf, hurl, hemp, hfetch, hw]
  · intro h
    cases hurl : r.searchablePDFURL with
    | none => simp [download_searchable_pdf, hurl]
    | some url =>
      by_cases hemp : url = ""
      · simp [download_searchable_pdf, hurl, hemp]
      · cases hfetch : env.fetchBytes url with
        | error e => simp [download_searchable_pdf, hurl, hemp, hfetch]
        | ok content =>
          by_cases hw : env.writeOk output_path
          · simp [download_searchable_pdf, hurl, hemp, hfetch, hw] at h
          · simp [download_searchable_pdf, hurl, hemp, hfetch, hw]

/-- Witness for C7: with no PDF URL in the response nothing is fetched or
written and the result is false. -/
theorem C7_witness : download_searchable_pdf okEnv emptyResponse "out.pdf" = (false, [], []) :=
  (C7_download_searchable_pdf okEnv emptyResponse "out.pdf").1 rfl

/-! ## Claim C8: base64 round trip -/

theorem sextetVal_sextetChar (n : Nat) (h : n < 64) : sextetVal (sextetChar n) = some n := by
  have hall : ∀ m : Fin 64, sextetVal (sextetChar m.val) = some m.val := by decide
  exact hall ⟨n, h⟩

theorem sextetChar_ne_pad (n : Nat) (h : n < 64) : sextetChar n ≠ '=' := by
  have hall : ∀ m : Fin 64, sextetChar m.val ≠ '=' := by decide
  exact hall ⟨n, h⟩

/-- Decoding inverts encoding on any list of bytes. -/
theorem b64decodeGroups_b64encodeGroups (bytes : List Nat) (h : ∀ b ∈ bytes, b < 256) :
    b64decodeGroups (b64encodeGroups bytes) = some bytes := by
  induction bytes using b64encodeGroups.induct with
  | case1 => rfl
  | case2 a =>
    have ha : a < 256 := h a (by simp)
    simp only [b64encodeGroups, b64decodeGroups,
      sextetVal_sextetChar (a / 4) (by omega),
      sextetVal_sextetChar (a % 4 * 16) (by omega), decodeBytes2]
    simp only [if_true, Option.some.injEq, List.cons.injEq, and_true]
    omega
  | case3 a b =>
    have ha : a < 256 := h a (by simp)
    have hb : b < 256 := h b (by simp)
    simp only [b64encodeGroups, b64decodeGroups,
      sextetVal_sextetChar (a / 4) (by omega),
      sextetVal_sextetChar (a % 4 * 16 + b / 16) (by omega),
      sextetVal_sextetChar (b % 16 * 4) (by omega), decodeBytes3]
    rw [if_neg (sextetChar_ne_pad (b % 16 * 4) (by omega))]
    simp only [if_true, Option.some.injEq, List.cons.injEq, and_true]
    omega
  | case4 a b c rest ih =>
    have ha : a < 256 := h a (by simp)
    have hb : b < 256 := h b (by simp)
    have hc : c < 256 := h c (by simp)
    have hrest : ∀ x ∈ rest, x < 256 := fun x hx => h x (by simp [hx])
    simp only [b64encodeGroups, b64decodeGroups,
      sextetVal_sextetChar (a / 4) (by omega),
      sextetVal_sextetChar (a % 4 * 16 + b / 16) (by omega),
      sextetVal_sextetChar (b % 16 * 4 + c / 64) (by omega),
      sextetVal_sextetChar (c % 64) (by omega), decodeBytes4]
    rw [if_neg (sextetChar_ne_pad (b % 16 * 4 + c / 64) (by omega))]
    rw [if_neg (sextetChar_ne_pad (c % 64) (by omega))]
    rw [ih hrest]
    simp only [Option.some.injEq, List.cons_append, List.nil_append,
      List.cons.injEq, and_true]
    refine ⟨?_, ?_, ?_⟩ <;> omega

/-- C8: for every existing image file, `image_to_base64` produces
`data:<mime>;base64,<enc>` where base64-decoding `<enc>` recovers exactly the
bytes of the file. -/
theorem C8_image_to_base64_roundtrip (env : Env) (image_path : String)
    (hex : env.fileExists image_path = true)
    (hbytes : ∀ b ∈ env.readBytes image_path, b < 256) :
    ∃ enc, image_to_base64 env image_path =
        Except.ok ("data:" ++ dictGetD mime_types (pyLower (pathSuffix image_path)) "image/jpeg"
          ++ ";base64," ++ enc)
      ∧ b64decode enc = some (env.readBytes image_path) := by
  refine ⟨b64encode (env.readBytes image_path), ?_, ?_⟩
  · unfold image_to_base64
    rw [hex]
    simp
  · show b64decodeGroups (b64encode (env.readBytes image_path)).data = _
    exact b64decodeGroups_b64encodeGroups (env.readBytes image_path) hbytes

/-- Witness for C8: the encoded data URI of a concrete file decodes back to
its bytes. -/
theorem C8_witness :
    ∃ enc, image_to_base64 pngEnv "/tmp/img.png" =
        Except.ok ("data:" ++ dictGetD mime_types (pyLower (pathSuffix "/tmp/img.png")) "image/jpeg"
          ++ ";base64," ++ enc)
      ∧ b64decode enc = some (pngEnv.readBytes "/tmp/img.png") :=
  C8_image_to_base64_roundtrip pngEnv "/tmp/img.png" rfl (by decide)

theorem head?_dropWhile_false {α : Type} (p : α → Bool) :
    ∀ (l : List α) (c : α), (l.dropWhile p).head? = some c → p c = false := by
  intro l
  induction l with
  | nil => intro c h; simp at h
  | cons a rest ih =>
    intro c h
    rw [List.dropWhile_cons] at h
    by_cases hp : p a
    · exact ih c (by simpa [hp] using h)
    · rw [if_neg hp] at h
      simp only [List.head?_cons, Option.some.injEq] at h
      subst h
      simpa using hp

theorem getLast?_dropWhile {α : Type} (p : α → Bool) :
    ∀ (l : List α), l.dropWhile p ≠ [] → (l.dropWhile p).getLast? = l.getLast? := by
  intro l
  induction l with
  | nil => intro h; simp at h
  | cons a rest ih =>
    intro h
    rw [List.dropWhile_cons] at h ⊢
    by_cases hp : p a
    · rw [if_pos hp] at h ⊢
      have hr : rest ≠ [] := by
        intro he
        subst he
        simp at h
      rw [ih h]
      rw [show a :: rest = [a] ++ rest from rfl]
      rw [List.getLast?_append_of_ne_nil _ hr]
    · rw [if_neg hp]

theorem pyStrip_head_not_ws (s : String) (c : Char)
    (h : (pyStrip s).data.head? = some c) : c.isWhitespace = false := by
  have hd : (pyStrip s).data =
      ((s.data.dropWhile Char.isWhitespace).reverse.dropWhile Char.isWhitespace).reverse := rfl
  rw [hd, List.head?_reverse] at h
  have hne : (s.data.dropWhile Char.isWhitespace).reverse.dropWhile Char.isWhitespace ≠ [] := by
    intro he
    rw [he] at h
    simp at h
  rw [getLast?_dropWhile _ _ hne, List.getLast?_reverse] at h
  exact head?_dropWhile_false _ _ _ h

theorem pyStrip_getLast_not_ws (s : String) (c : Char)
    (h : (pyStrip s).data.getLast? = some c) : c.isWhitespace = false := by
  have hd : (pyStrip s).data =
      ((s.data.dropWhile Char.isWhitespace).reverse.dropWhile Char.isWhitespace).reverse := rfl
  rw [hd, List.getLast?_reverse] at h
  exact head?_dropWhile_false _ _ _ h

theorem extractTexts_mem : ∀ (ps : List ParsedResult) (s : String), s ∈ extractTexts ps →
    s ≠ "" ∧ ∃ t, s = pyStrip t := by
  intro ps
  induction ps with
  | nil => intro s h; simp [extractTexts] at h
  | cons result rest ih =>
    intro s h
    by_cases hc : result.fileParseExitCode = some 1
    · by_cases ht : pyStrip (result.parsedText.getD "") = ""
      · rw [extractTexts] at h
        simp only [hc, if_true, ht] at h
        simp only [ne_eq, not_true_eq_false, if_false] at h
        exact ih s h
      · rw [extractTexts] at h
        simp only [hc, if_true] at h
        rw [if_pos ht] at h
        rcases List.mem_cons.mp h with h | h
        · subst h
          exact ⟨ht, result.parsedText.getD "", rfl⟩
        · exact ih s h
    · rw [extractTexts] at h
      simp only [hc, if_false] at h
      exact ih s h

theorem data_ne_nil_of_ne_empty (s : String) (h : s ≠ "") : s.data ≠ [] := by
  intro he
  apply h
  cases s with
  | mk l =>
    simp only at he
    rw [he]

theorem pyJoin_data_head? (sep : String) :
    ∀ (segs : List String) (s : String), segs.head? = some s → s.data ≠ [] →
      (pyJoin sep segs).data.head? = s.data.head? := by
  intro segs
  match segs with
  | [] => intro s h _; simp at h
  | [s0] =>
    intro s h _
    simp only [List.head?_cons, Option.some.injEq] at h
    subst h
    rfl
  | s0 :: s1 :: rest =>
    intro s h hne
    simp only [List.head?_cons, Option.some.injEq] at h
    subst h
    show ((s0 ++ sep ++ pyJoin sep (s1 :: rest))).data.head? = s0.data.head?
    rw [String.data_append, String.data_append]
    rw [List.append_assoc]
    rw [List.head?_append_of_ne_nil _ hne]

theorem pyJoin_data_getLast? (sep : String) :
    ∀ (segs : List String), (∀ x ∈ segs, x.data ≠ []) → segs ≠ [] →
      ∃ s, s ∈ segs ∧ s.data ≠ [] ∧ (pyJoin sep segs).data.getLast? = s.data.getLast? := by
  intro segs
  induction segs with
  | nil => intro _ h; exact absurd rfl h
  | cons s0 rest ih =>
    intro hall _
    match rest with
    | [] =>
      exact ⟨s0, by simp, hall s0 (by simp), rfl⟩
    | s1 :: rest2 =>
      obtain ⟨s, hmem, hsne, hlast⟩ := ih (fun x hx => hall x (by simp [hx])) (by simp)
      have hjne : (pyJoin sep (s1 :: rest2)).data ≠ [] := by
        intro he
        rw [he] at hlast
        obtain ⟨c, hc⟩ : ∃ c, s.data.getLast? = some c := by
          cases hg : s.data.getLast? with
          | none => exact absurd (List.getLast?_eq_none_iff.mp hg) hsne
          | some c => exact ⟨c, rfl⟩
        rw [hc] at hlast
        simp at hlast
      refine ⟨s, by simp [hmem], hsne, ?_⟩
      show ((s0 ++ sep ++ pyJoin sep (s1 :: rest2))).data.getLast? = s.data.getLast?
      rw [String.data_append, String.data_append]
      rw [List.getLast?_append_of_ne_nil _ hjne]
      exact hlast

theorem pyStartswith_sep_false (r : OCRResponse) :
    pyStartswith (extract_text r) "\n\n" = false := by
  unfold extract_text
  cases hsegs : extractTexts (r.parsedResults.getD []) with
  | nil => rfl
  | cons s rest =>
    obtain ⟨hne, t, hst⟩ := extractTexts_mem _ s (by rw [hsegs]; exact List.mem_cons_self _ _)
    have hdne : s.data ≠ [] := data_ne_nil_of_ne_empty s hne
    have hj : (pyJoin "\n\n" (s :: rest)).data.head? = s.data.head? :=
      pyJoin_data_head? "\n\n" (s :: rest) s rfl hdne
    cases hcd : s.data with
    | nil => exact absurd hcd hdne
    | cons c cs =>
      have hw : c.isWhitespace = false := pyStrip_head_not_ws t c (by rw [← hst, hcd]; rfl)
      rw [hcd] at hj
      simp only [List.head?_cons] at hj
      unfold pyStartswith
      obtain ⟨jd, hjd⟩ : ∃ jd, (pyJoin "\n\n" (s :: rest)).data = c :: jd := by
        cases hX : (pyJoin "\n\n" (s :: rest)).data with
        | nil => rw [hX] at hj; simp at hj
        | cons x xs =>
          rw [hX] at hj
          simp only [List.head?_cons, Option.some.injEq] at hj
          exact ⟨xs, by rw [hj]⟩
      rw [hjd]
      have hcne : ¬(('\n' : Char) = c) := by
        intro he
        rw [← he] at hw
        exact absurd hw (by decide)
      have hd : (decide (('\n' : Char) = c)) = false := decide_eq_false hcne
      show charsStartWith ('\n' :: '\n' :: []) (c :: jd) = false
      rw [charsStartWith]
      rw [hd]
      rfl

theorem pyEndswith_sep_false (r : OCRResponse) :
    pyEndswith (extract_text r) "\n\n" = false := by
  unfold extract_text
  cases hsegs : extractTexts (r.parsedResults.getD []) with
  | nil => rfl
  | cons s0 rest =>
    have hall : ∀ x ∈ s0 :: rest, x.data ≠ [] := by
      intro x hx
      obtain ⟨hne, -⟩ := extractTexts_mem _ x (by rw [hsegs]; exact hx)
      exact data_ne_nil_of_ne_empty x hne
    obtain ⟨s, hmem, hsne, hlast⟩ := pyJoin_data_getLast? "\n\n" (s0 :: rest) hall (by simp)
    obtain ⟨hne, t, hst⟩ := extractTexts_mem _ s (by rw [hsegs]; exact hmem)
    obtain ⟨c, hc⟩ : ∃ c, s.data.getLast? = some c := by
      cases hg : s.data.getLast? with
      | none => exact absurd (List.getLast?_eq_none_iff.mp hg) hsne
      | some c => exact ⟨c, rfl⟩
    have hw : c.isWhitespace = false := pyStrip_getLast_not_ws t c (by rw [← hst]; exact hc)
    unfold pyEndswith
    have hrev : (pyJoin "\n\n" (s0 :: rest)).data.reverse.head? = some c := by
      rw [List.head?_reverse, hlast]
      exact hc
    obtain ⟨jd, hjd⟩ : ∃ jd, (pyJoin "\n\n" (s0 :: rest)).data.reverse = c :: jd := by
      cases hX : (pyJoin "\n\n" (s0 :: rest)).data.reverse with
      | nil => rw [hX] at hrev; simp at hrev
      | cons x xs =>
        rw [hX] at hrev
        simp only [List.head?_cons, Option.some.injEq] at hrev
        exact ⟨xs, by rw [hrev]⟩
    rw [hjd]
    have hcne : ¬(('\n' : Char) = c) := by
      intro he
      rw [← he] at hw
      exact absurd hw (by decide)
    have hd : (decide (('\n' : Char) = c)) = false := decide_eq_false hcne
    show charsStartWith ('\n' :: '\n' :: []) (c :: jd) = false
    rw [charsStartWith]
    rw [hd]
    rfl

theorem extractTexts_insert_blank (wsp : ParsedResult)
    (hw : pyStrip (wsp.parsedText.getD "") = "") :
    ∀ pre post, extractTexts (pre ++ wsp :: post) = extractTexts (pre ++ post) := by
  intro pre post
  induction pre with
  | nil =>
    simp only [List.nil_append]
    by_cases hc : wsp.fileParseExitCode = some 1
    · simp [extractTexts, hc, hw]
    · simp [extractTexts, hc]
  | cons p pre ih =>
    simp only [List.cons_append]
    by_cases hc : p.fileParseExitCode = some 1
    · by_cases ht : pyStrip (p.parsedText.getD "") = ""
      · simp [extractTexts, hc, ht, ih]
      · simp [extractTexts, hc, ht, ih]
    · simp [extractTexts, hc, ih]

/-- Counterexample to C10 as stated: a single successful page whose own text
contains four consecutive newlines makes `extract_text` return a string that
does contain two adjacent blank-line separators, refuting "never contains
more than one consecutive separator". -/
theorem C10_counterexample :
    extract_text rMultiNewline = "a\n\n\n\nb"
    ∧ charsContain ("\n\n" ++ "\n\n").data (extract_text rMultiNewline).data = true := by
  refine ⟨by decide, by decide⟩

/-- C10 amended: `extract_text` never produces empty segments — a page whose
text strips to empty contributes nothing to the output, not even a blank-line
separator (deleting it from the page list leaves the result unchanged), every
joined segment is nonempty, and the returned string never begins or ends with
the separator; the output can still contain consecutive separators when a
page's own text does. -/
theorem C10_no_empty_segments (r : OCRResponse) (pre post : List ParsedResult)
    (wsp : ParsedResult) :
    (pyStrip (wsp.parsedText.getD "") = "" →
      extractTexts (pre ++ wsp :: post) = extractTexts (pre ++ post))
    ∧ (∀ s ∈ extractTexts (r.parsedResults.getD []), s ≠ "")
    ∧ pyStartswith (extract_text r) "\n\n" = false
    ∧ pyEndswith (extract_text r) "\n\n" = false :=
  ⟨fun hw => extractTexts_insert_blank wsp hw pre post,
   fun s hs => (extractTexts_mem _ s hs).1,
   pyStartswith_sep_false r, pyEndswith_sep_false r⟩

/-- Witness for C10 at concrete inputs: removing a whitespace-only successful
page between "Hello" and "World" leaves the segment list unchanged. -/
theorem C10_witness :
    extractTexts ([okPage "Hello"] ++ okPage " \n " :: [okPage "World"]) =
      extractTexts ([okPage "Hello"] ++ [okPage "World"]) :=
  (C10_no_empty_segments rHello [okPage "Hello"] [okPage "World"] (okPage " \n ")).1 (by decide)

end OCRSpace

